import Mathlib

/-!
Verification of the system_monitor repository (monitor.py, app.py,
pdf_generator.py): a shallow embedding of the sampling/rate engine, the
recording session state machine and the report aggregation, with theorems
settling the specification's claims about them.

Numbers are modelled with `ℚ` (Python floats with exact arithmetic);
cumulative byte counters and wall-clock times are `ℚ` as well, since the
source mixes them freely in float subtraction and division.
-/

/-- Python's built-in `round(x, 2)`: round `x * 100` to the nearest integer,
ties to the even integer (banker's rounding), then divide by 100. -/
def roundHalfEven (q : ℚ) : ℤ :=
  if q - ⌊q⌋ < 1/2 then ⌊q⌋
  else if 1/2 < q - ⌊q⌋ then ⌊q⌋ + 1
  else if ⌊q⌋ % 2 = 0 then ⌊q⌋ else ⌊q⌋ + 1

/-- `round(x, 2)` from Python, on exact rationals. -/
def pyRound2 (q : ℚ) : ℚ := (roundHalfEven (q * 100) : ℚ) / 100

theorem roundHalfEven_nonneg {q : ℚ} (hq : 0 ≤ q) : 0 ≤ roundHalfEven q := by
  have h0 : (0:ℤ) ≤ ⌊q⌋ := Int.floor_nonneg.mpr hq
  unfold roundHalfEven
  split_ifs <;> omega

theorem roundHalfEven_nonpos {q : ℚ} (hq : q ≤ 0) : roundHalfEven q ≤ 0 := by
  have h0 : ⌊q⌋ ≤ 0 := by
    have h := Int.floor_le_floor (α := ℚ) hq
    simpa using h
  unfold roundHalfEven
  split_ifs with h1 h2 h3
  · exact h0
  · have hlt : (⌊q⌋ : ℚ) < 0 := by linarith
    have : ⌊q⌋ < 0 := by exact_mod_cast hlt
    omega
  · exact h0
  · have hfrac : (1:ℚ)/2 ≤ q - ⌊q⌋ := le_of_not_lt h1
    have hlt : (⌊q⌋ : ℚ) < 0 := by linarith
    have : ⌊q⌋ < 0 := by exact_mod_cast hlt
    omega

theorem pyRound2_nonneg {q : ℚ} (hq : 0 ≤ q) : 0 ≤ pyRound2 q := by
  have h : (0:ℤ) ≤ roundHalfEven (q * 100) :=
    roundHalfEven_nonneg (by positivity)
  unfold pyRound2
  have h100 : (0:ℚ) ≤ 100 := by norm_num
  exact div_nonneg (by exact_mod_cast h) h100

theorem pyRound2_nonpos {q : ℚ} (hq : q ≤ 0) : pyRound2 q ≤ 0 := by
  have h : roundHalfEven (q * 100) ≤ 0 :=
    roundHalfEven_nonpos (by nlinarith)
  unfold pyRound2
  have hc : ((roundHalfEven (q * 100) : ℤ) : ℚ) ≤ 0 := by exact_mod_cast h
  have h100 : (0:ℚ) < 100 := by norm_num
  exact div_nonpos_of_nonpos_of_nonneg hc (le_of_lt h100)

theorem pyRound2_zero : pyRound2 0 = 0 := by
  norm_num [pyRound2, roundHalfEven]

namespace SystemMonitor

/-- Cumulative disk I/O counters, the fields of `psutil.disk_io_counters()`
used by `get_disk_info`. -/
structure DiskCounters where
  read_bytes : ℚ
  write_bytes : ℚ
deriving DecidableEq

/-- Cumulative network counters, the fields of `psutil.net_io_counters()`
used by `get_network_info`. -/
structure NetCounters where
  bytes_sent : ℚ
  bytes_recv : ℚ
deriving DecidableEq

/-- The mutable rate state owned by the `SystemMonitor` instance:
`self.last_net_io`, `self.last_disk_io`, `self.last_time`. -/
structure RateState where
  last_net_io : NetCounters
  last_disk_io : DiskCounters
  last_time : ℚ
deriving DecidableEq

/-- The `io` part of `get_disk_info`'s return dictionary. -/
structure DiskResult where
  read_bytes : ℚ
  write_bytes : ℚ
  read_speed : ℚ
  write_speed : ℚ
deriving DecidableEq

/-- The counter/speed part of `get_network_info`'s return dictionary. -/
structure NetResult where
  bytes_sent : ℚ
  bytes_recv : ℚ
  bytes_sent_speed : ℚ
  bytes_recv_speed : ℚ
  bytes_sent_speed_mb : ℚ
  bytes_recv_speed_mb : ℚ
deriving DecidableEq

/-- `SystemMonitor.get_disk_info`, rate/state part (monitor.py lines
154-175): `time_diff = current_time - self.last_time`; when positive the
speeds are counter deltas over `time_diff`, otherwise `0`; the method then
overwrites `self.last_disk_io` (and nothing else) and reports the speeds
divided by `1024**2` (MB/s) rounded to two decimals. -/
def get_disk_info (s : RateState) (current_time : ℚ) (current_disk_io : DiskCounters) :
    DiskResult × RateState :=
  let time_diff := current_time - s.last_time
  let speeds :=
    if time_diff > 0 then
      ((current_disk_io.read_bytes - s.last_disk_io.read_bytes) / time_diff,
       (current_disk_io.write_bytes - s.last_disk_io.write_bytes) / time_diff)
    else (0, 0)
  ({ read_bytes := current_disk_io.read_bytes
     write_bytes := current_disk_io.write_bytes
     read_speed := pyRound2 (speeds.1 / 1048576)
     write_speed := pyRound2 (speeds.2 / 1048576) },
   { s with last_disk_io := current_disk_io })

/-- `SystemMonitor.get_network_info`, rate/state part (monitor.py lines
179-224): `time_diff = current_time - self.last_time`; when positive the
speeds are counter deltas over `time_diff`, otherwise `0`; the method then
overwrites `self.last_net_io` and `self.last_time`, and reports the speeds
divided by `1024` (KB/s) and `1024**2` (MB/s), rounded to two decimals. -/
def get_network_info (s : RateState) (current_time : ℚ) (current_net_io : NetCounters) :
    NetResult × RateState :=
  let time_diff := current_time - s.last_time
  let speeds :=
    if time_diff > 0 then
      ((current_net_io.bytes_sent - s.last_net_io.bytes_sent) / time_diff,
       (current_net_io.bytes_recv - s.last_net_io.bytes_recv) / time_diff)
    else (0, 0)
  ({ bytes_sent := current_net_io.bytes_sent
     bytes_recv := current_net_io.bytes_recv
     bytes_sent_speed := pyRound2 (speeds.1 / 1024)
     bytes_recv_speed := pyRound2 (speeds.2 / 1024)
     bytes_sent_speed_mb := pyRound2 (speeds.1 / 1048576)
     bytes_recv_speed_mb := pyRound2 (speeds.2 / 1048576) },
   { s with last_net_io := current_net_io, last_time := current_time })

end SystemMonitor

namespace PDFReportGenerator

/-- One entry of a sample's `gpu.gpus` list, with the fields consumed by
the aggregation in `generate_report` (`load`, `memory_percent`,
`temperature`; `temperature` may be `None` in the source). -/
structure GpuSample where
  load : ℚ
  memory_percent : ℚ
  temperature : Option ℚ
deriving DecidableEq

/-- One recorded sample (one `get_all_resources()` dictionary), with the
fields consumed by `PDFReportGenerator.generate_report`'s aggregation:
`cpu.percent`, `cpu.temperature` (optional), `memory.percent`,
`network.bytes_sent_speed`, `network.bytes_recv_speed`,
`disk.io.read_speed`, `disk.io.write_speed`, `gpu.available`, `gpu.gpus`. -/
structure Sample where
  cpu_percent : ℚ
  cpu_temperature : Option ℚ
  memory_percent : ℚ
  bytes_sent_speed : ℚ
  bytes_recv_speed : ℚ
  read_speed : ℚ
  write_speed : ℚ
  gpu_available : Bool
  gpus : List GpuSample
deriving DecidableEq

/-- Result of `_calculate_statistics`. -/
structure Stats where
  avg : ℚ
  min : ℚ
  max : ℚ
deriving DecidableEq

/-- `PDFReportGenerator._calculate_statistics` (pdf_generator.py lines
144-153): empty list gives all-zero statistics; otherwise rounded mean,
minimum and maximum of the list. -/
def calculate_statistics : List ℚ → Stats
  | [] => { avg := 0, min := 0, max := 0 }
  | x :: xs =>
    { avg := pyRound2 ((x :: xs).sum / ((x :: xs).length : ℚ))
      min := pyRound2 (xs.foldl min x)
      max := pyRound2 (xs.foldl max x) }

/-- The GPU extraction loop of `generate_report` (pdf_generator.py lines
218-223): for each sample whose `gpu.gpus` list is non-empty, take the
FIRST gpu and append its `load`, its `temperature or 0` (so an absent
temperature contributes `0`), and its `memory_percent`; samples with an
empty `gpus` list are skipped. Returns `(gpu_load, gpu_temp, gpu_memory)`. -/
def gpuExtract : List Sample → List ℚ × List ℚ × List ℚ
  | [] => ([], [], [])
  | d :: rest =>
    match d.gpus with
    | [] => gpuExtract rest
    | g :: _ =>
      let (ls, ts, ms) := gpuExtract rest
      (g.load :: ls, (g.temperature.getD 0) :: ts, g.memory_percent :: ms)

/-- The GPU statistics block of the report (pdf_generator.py lines
281-289), present only when `gpu_load` is non-empty. -/
structure GpuStatsSection where
  load_stats : Stats
  temp_stats : Stats
  mem_stats : Stats
deriving DecidableEq

/-- The aggregation payload assembled by
`PDFReportGenerator.generate_report` (sample count and every statistics
table it renders). -/
structure Report where
  sample_count : Nat
  cpu_stats : Stats
  mem_stats : Stats
  gpu_section : Option GpuStatsSection
  net_sent_stats : Stats
  net_recv_stats : Stats
  disk_read_stats : Stats
  disk_write_stats : Stats
deriving DecidableEq

/-- `PDFReportGenerator.generate_report` (pdf_generator.py lines 155-428),
aggregation part: extracts the per-metric series from `recorded_data`,
fills the GPU series only when the FIRST sample reports
`gpu.available` (line 217), includes the GPU block only when `gpu_load`
is non-empty (line 267), and computes statistics with
`_calculate_statistics`. The method performs no length check and has no
failing path: it produces a report for every buffer, including lengths 0
and 1. -/
def generate_report (recorded_data : List Sample) : Report :=
  let cpu_data := recorded_data.map (fun d => d.cpu_percent)
  let memory_data := recorded_data.map (fun d => d.memory_percent)
  let network_sent := recorded_data.map (fun d => d.bytes_sent_speed)
  let network_recv := recorded_data.map (fun d => d.bytes_recv_speed)
  let disk_read := recorded_data.map (fun d => d.read_speed)
  let disk_write := recorded_data.map (fun d => d.write_speed)
  let gpuSeries :=
    match recorded_data with
    | [] => ([], [], [])
    | d0 :: _ => if d0.gpu_available then gpuExtract recorded_data else ([], [], [])
  let gpu_load := gpuSeries.1
  let gpu_temp := gpuSeries.2.1
  let gpu_memory := gpuSeries.2.2
  { sample_count := recorded_data.length
    cpu_stats := calculate_statistics cpu_data
    mem_stats := calculate_statistics memory_data
    gpu_section :=
      if gpu_load.isEmpty then none
      else some { load_stats := calculate_statistics gpu_load
                  temp_stats := calculate_statistics gpu_temp
                  mem_stats := calculate_statistics gpu_memory }
    net_sent_stats := calculate_statistics network_sent
    net_recv_stats := calculate_statistics network_recv
    disk_read_stats := calculate_statistics disk_read
    disk_write_stats := calculate_statistics disk_write }

end PDFReportGenerator

namespace App

open PDFReportGenerator

/-- `RECORDING_DURATION = 300` (app.py line 26). -/
def RECORDING_DURATION : ℚ := 300

/-- The module-level mutable state of app.py used by the recording
routes: `recording`, `recorded_data`, `recording_start_time`. -/
structure AppState where
  recording : Bool
  recorded_data : List Sample
  recording_start_time : Option ℚ
deriving DecidableEq

/-- Outcome of the `/api/start-recording` route. -/
inductive StartRecordingResult
  | already_recording
  | started (start_time : ℚ) (duration : ℚ)
deriving DecidableEq

/-- `start_recording` (app.py lines 70-89): if `recording` is set, return
the `already_recording` status and leave every global untouched;
otherwise set `recording`, clear `recorded_data`, record the start time
and spawn the worker (the spawn itself is external to the state). -/
def start_recording (st : AppState) (now : ℚ) : StartRecordingResult × AppState :=
  if st.recording then (.already_recording, st)
  else (.started now RECORDING_DURATION,
        { recording := true, recorded_data := [], recording_start_time := some now })

/-- `recording_worker` (app.py lines 29-42) on a discrete schedule: the
list holds, for each loop iteration, the `time.time()` value read in the
guard and the sample `get_all_resources()` would return on that tick.
While `recording` holds and `t - start < RECORDING_DURATION` the body
appends the sample and loops; at the first failing guard the loop exits
and executes `recording = False`. `none` means the schedule ran out while
the guard still held. -/
def recording_worker (start : ℚ) :
    List (ℚ × Sample) → Bool → List Sample → Option (Bool × List Sample)
  | [], _, _ => none
  | (t, smp) :: rest, recording, buf =>
    if recording = true ∧ t - start < RECORDING_DURATION then
      recording_worker start rest recording (buf ++ [smp])
    else some (false, buf)

/-- Outcome of the `/api/generate-report` route: `not_enough_data` models
the `'Not enough data to generate report'` error with HTTP status 400. -/
inductive GenerateReportResult
  | not_enough_data
  | success (report : Report) (samples : Nat)
deriving DecidableEq

/-- `generate_report` route (app.py lines 108-139): rejects a buffer of
fewer than 2 samples before invoking the generator; otherwise hands the
buffer to `PDFReportGenerator.generate_report`. -/
def generate_report (recorded_data : List Sample) : GenerateReportResult :=
  if recorded_data.length < 2 then .not_enough_data
  else .success (PDFReportGenerator.generate_report recorded_data) recorded_data.length

end App

/-! ## Claims -/

/-- C9: `_calculate_statistics` applied to the empty list returns
`{avg := 0, min := 0, max := 0}` and never fails, so an empty metric
series yields all-zero statistics rather than an error. -/
theorem calculate_statistics_empty :
    PDFReportGenerator.calculate_statistics [] = { avg := 0, min := 0, max := 0 } := rfl

/-- C10: within one full sample, `get_disk_info` overwrites `last_disk_io`
but leaves `last_time` and `last_net_io` untouched; `get_network_info`
overwrites `last_net_io` and `last_time` and leaves `last_disk_io`
untouched. Consequently a network call made after a disk call behaves
exactly as if only `last_disk_io` had changed: its elapsed time is still
measured from the previous `get_network_info` call's `last_time`. -/
theorem rate_state_frame_effects (s : SystemMonitor.RateState) (t t2 : ℚ)
    (d : SystemMonitor.DiskCounters) (n : SystemMonitor.NetCounters) :
    (SystemMonitor.get_disk_info s t d).2.last_time = s.last_time ∧
    (SystemMonitor.get_disk_info s t d).2.last_net_io = s.last_net_io ∧
    (SystemMonitor.get_disk_info s t d).2.last_disk_io = d ∧
    (SystemMonitor.get_network_info s t n).2.last_time = t ∧
    (SystemMonitor.get_network_info s t n).2.last_net_io = n ∧
    (SystemMonitor.get_network_info s t n).2.last_disk_io = s.last_disk_io ∧
    (SystemMonitor.get_network_info (SystemMonitor.get_disk_info s t d).2 t2 n).1
      = (SystemMonitor.get_network_info { s with last_disk_io := d } t2 n).1 :=
  ⟨rfl, rfl, rfl, rfl, rfl, rfl, rfl⟩

/-- C7: when the elapsed time `current_time - last_time` is not positive,
every disk and network rate is reported as exactly `0` — no division is
attempted. -/
theorem nonpositive_elapsed_zero_rates (s : SystemMonitor.RateState) (t : ℚ)
    (d : SystemMonitor.DiskCounters) (n : SystemMonitor.NetCounters)
    (h : t - s.last_time ≤ 0) :
    (SystemMonitor.get_disk_info s t d).1.read_speed = 0 ∧
    (SystemMonitor.get_disk_info s t d).1.write_speed = 0 ∧
    (SystemMonitor.get_network_info s t n).1.bytes_sent_speed = 0 ∧
    (SystemMonitor.get_network_info s t n).1.bytes_recv_speed = 0 ∧
    (SystemMonitor.get_network_info s t n).1.bytes_sent_speed_mb = 0 ∧
    (SystemMonitor.get_network_info s t n).1.bytes_recv_speed_mb = 0 := by
  have h' : ¬ (t - s.last_time > 0) := not_lt.mpr h
  refine ⟨?_, ?_, ?_, ?_, ?_, ?_⟩ <;>
    simp [SystemMonitor.get_disk_info, SystemMonitor.get_network_info, h', pyRound2_zero]

/-- C7 witness: a concrete call with zero elapsed time reports rate 0. -/
theorem nonpositive_elapsed_zero_rates_witness :
    (SystemMonitor.get_disk_info ⟨⟨0, 0⟩, ⟨0, 0⟩, 5⟩ 5 ⟨7, 8⟩).1.read_speed = 0 :=
  (nonpositive_elapsed_zero_rates ⟨⟨0, 0⟩, ⟨0, 0⟩, 5⟩ 5 ⟨7, 8⟩ ⟨9, 10⟩ (by norm_num)).1

/-- C4: with positive elapsed time, each reported rate is exactly the
counter delta divided by the elapsed time, scaled to MB/s (disk) or KB/s
(network) and rounded to two decimals; and whenever the current counter
is at least the previous one the reported rate is non-negative. -/
theorem rate_formula_and_nonneg (s : SystemMonitor.RateState) (t : ℚ)
    (d : SystemMonitor.DiskCounters) (n : SystemMonitor.NetCounters)
    (h : 0 < t - s.last_time) :
    ((SystemMonitor.get_disk_info s t d).1.read_speed
      = pyRound2 ((d.read_bytes - s.last_disk_io.read_bytes) / (t - s.last_time) / 1048576)) ∧
    ((SystemMonitor.get_disk_info s t d).1.write_speed
      = pyRound2 ((d.write_bytes - s.last_disk_io.write_bytes) / (t - s.last_time) / 1048576)) ∧
    ((SystemMonitor.get_network_info s t n).1.bytes_sent_speed
      = pyRound2 ((n.bytes_sent - s.last_net_io.bytes_sent) / (t - s.last_time) / 1024)) ∧
    ((SystemMonitor.get_network_info s t n).1.bytes_recv_speed
      = pyRound2 ((n.bytes_recv - s.last_net_io.bytes_recv) / (t - s.last_time) / 1024)) ∧
    (s.last_disk_io.read_bytes ≤ d.read_bytes →
      0 ≤ (SystemMonitor.get_disk_info s t d).1.read_speed) ∧
    (s.last_disk_io.write_bytes ≤ d.write_bytes →
      0 ≤ (SystemMonitor.get_disk_info s t d).1.write_speed) ∧
    (s.last_net_io.bytes_sent ≤ n.bytes_sent →
      0 ≤ (SystemMonitor.get_network_info s t n).1.bytes_sent_speed) ∧
    (s.last_net_io.bytes_recv ≤ n.bytes_recv →
      0 ≤ (SystemMonitor.get_network_info s t n).1.bytes_recv_speed) := by
  have hgt : t - s.last_time > 0 := h
  refine ⟨?_, ?_, ?_, ?_, ?_, ?_, ?_, ?_⟩
  · simp [SystemMonitor.get_disk_info, hgt]
  · simp [SystemMonitor.get_disk_info, hgt]
  · simp [SystemMonitor.get_network_info, hgt]
  · simp [SystemMonitor.get_network_info, hgt]
  · intro hle
    have hnn : 0 ≤ (d.read_bytes - s.last_disk_io.read_bytes) / (t - s.last_time) / 1048576 :=
      div_nonneg (div_nonneg (sub_nonneg.mpr hle) h.le) (by norm_num)
    simpa [SystemMonitor.get_disk_info, hgt] using pyRound2_nonneg hnn
  · intro hle
    have hnn : 0 ≤ (d.write_bytes - s.last_disk_io.write_bytes) / (t - s.last_time) / 1048576 :=
      div_nonneg (div_nonneg (sub_nonneg.mpr hle) h.le) (by norm_num)
    simpa [SystemMonitor.get_disk_info, hgt] using pyRound2_nonneg hnn
  · intro hle
    have hnn : 0 ≤ (n.bytes_sent - s.last_net_io.bytes_sent) / (t - s.last_time) / 1024 :=
      div_nonneg (div_nonneg (sub_nonneg.mpr hle) h.le) (by norm_num)
    simpa [SystemMonitor.get_network_info, hgt] using pyRound2_nonneg hnn
  · intro hle
    have hnn : 0 ≤ (n.bytes_recv - s.last_net_io.bytes_recv) / (t - s.last_time) / 1024 :=
      div_nonneg (div_nonneg (sub_nonneg.mpr hle) h.le) (by norm_num)
    simpa [SystemMonitor.get_network_info, hgt] using pyRound2_nonneg hnn

/-- C4 witness: one second elapsed, disk read counter grew by 1 MB:
the reported read speed is the rounded scaled delta. -/
theorem rate_formula_and_nonneg_witness :
    (SystemMonitor.get_disk_info ⟨⟨0, 0⟩, ⟨0, 0⟩, 0⟩ 1 ⟨1048576, 2097152⟩).1.read_speed
      = pyRound2 ((1048576 - (0:ℚ)) / (1 - 0) / 1048576) :=
  (rate_formula_and_nonneg ⟨⟨0, 0⟩, ⟨0, 0⟩, 0⟩ 1 ⟨1048576, 2097152⟩ ⟨1024, 2048⟩
    (by norm_num)).1

/-- C1 counterexample: a wrapped counter (current smaller than previous)
with one second elapsed yields a strictly NEGATIVE reported rate in both
`get_disk_info` and `get_network_info` — the code performs no clamping
to 0. -/
theorem wraparound_clamp_counterexample :
    (SystemMonitor.get_disk_info ⟨⟨2048, 2048⟩, ⟨3145728, 3145728⟩, 0⟩ 1
        ⟨1048576, 1048576⟩).1.read_speed < 0 ∧
    (SystemMonitor.get_network_info ⟨⟨2048, 2048⟩, ⟨3145728, 3145728⟩, 0⟩ 1
        ⟨1024, 1024⟩).1.bytes_sent_speed < 0 := by
  constructor <;>
    norm_num [SystemMonitor.get_disk_info, SystemMonitor.get_network_info,
      pyRound2, roundHalfEven]

/-- C1 amended: on counter wraparound (current counter at most the
previous one) with positive elapsed time, the rate is NOT clamped: it is
the same difference quotient as always, hence a non-positive reported
value (strictly negative whenever the scaled magnitude reaches the
rounding precision). -/
theorem wraparound_rate_not_clamped (s : SystemMonitor.RateState) (t : ℚ)
    (d : SystemMonitor.DiskCounters) (n : SystemMonitor.NetCounters)
    (h : 0 < t - s.last_time) :
    (d.read_bytes ≤ s.last_disk_io.read_bytes →
      (SystemMonitor.get_disk_info s t d).1.read_speed
        = pyRound2 ((d.read_bytes - s.last_disk_io.read_bytes) / (t - s.last_time) / 1048576) ∧
      (SystemMonitor.get_disk_info s t d).1.read_speed ≤ 0) ∧
    (d.write_bytes ≤ s.last_disk_io.write_bytes →
      (SystemMonitor.get_disk_info s t d).1.write_speed
        = pyRound2 ((d.write_bytes - s.last_disk_io.write_bytes) / (t - s.last_time) / 1048576) ∧
      (SystemMonitor.get_disk_info s t d).1.write_speed ≤ 0) ∧
    (n.bytes_sent ≤ s.last_net_io.bytes_sent →
      (SystemMonitor.get_network_info s t n).1.bytes_sent_speed
        = pyRound2 ((n.bytes_sent - s.last_net_io.bytes_sent) / (t - s.last_time) / 1024) ∧
      (SystemMonitor.get_network_info s t n).1.bytes_sent_speed ≤ 0) ∧
    (n.bytes_recv ≤ s.last_net_io.bytes_recv →
      (SystemMonitor.get_network_info s t n).1.bytes_recv_speed
        = pyRound2 ((n.bytes_recv - s.last_net_io.bytes_recv) / (t - s.last_time) / 1024) ∧
      (SystemMonitor.get_network_info s t n).1.bytes_recv_speed ≤ 0) := by
  have hgt : t - s.last_time > 0 := h
  refine ⟨?_, ?_, ?_, ?_⟩ <;> intro hle
  · have hnp : (d.read_bytes - s.last_disk_io.read_bytes) / (t - s.last_time) / 1048576 ≤ 0 :=
      div_nonpos_of_nonpos_of_nonneg
        (div_nonpos_of_nonpos_of_nonneg (sub_nonpos.mpr hle) h.le) (by norm_num)
    constructor
    · simp [SystemMonitor.get_disk_info, hgt]
    · simpa [SystemMonitor.get_disk_info, hgt] using pyRound2_nonpos hnp
  · have hnp : (d.write_bytes - s.last_disk_io.write_bytes) / (t - s.last_time) / 1048576 ≤ 0 :=
      div_nonpos_of_nonpos_of_nonneg
        (div_nonpos_of_nonpos_of_nonneg (sub_nonpos.mpr hle) h.le) (by norm_num)
    constructor
    · simp [SystemMonitor.get_disk_info, hgt]
    · simpa [SystemMonitor.get_disk_info, hgt] using pyRound2_nonpos hnp
  · have hnp : (n.bytes_sent - s.last_net_io.bytes_sent) / (t - s.last_time) / 1024 ≤ 0 :=
      div_nonpos_of_nonpos_of_nonneg
        (div_nonpos_of_nonpos_of_nonneg (sub_nonpos.mpr hle) h.le) (by norm_num)
    constructor
    · simp [SystemMonitor.get_network_info, hgt]
    · simpa [SystemMonitor.get_network_info, hgt] using pyRound2_nonpos hnp
  · have hnp : (n.bytes_recv - s.last_net_io.bytes_recv) / (t - s.last_time) / 1024 ≤ 0 :=
      div_nonpos_of_nonpos_of_nonneg
        (div_nonpos_of_nonpos_of_nonneg (sub_nonpos.mpr hle) h.le) (by norm_num)
    constructor
    · simp [SystemMonitor.get_network_info, hgt]
    · simpa [SystemMonitor.get_network_info, hgt] using pyRound2_nonpos hnp

/-- C1 amended witness: the wrapped disk read counter from the
counterexample yields a non-positive reported rate. -/
theorem wraparound_rate_not_clamped_witness :
    (SystemMonitor.get_disk_info ⟨⟨2048, 2048⟩, ⟨3145728, 3145728⟩, 0⟩ 1
        ⟨1048576, 1048576⟩).1.read_speed ≤ 0 :=
  ((wraparound_rate_not_clamped ⟨⟨2048, 2048⟩, ⟨3145728, 3145728⟩, 0⟩ 1
      ⟨1048576, 1048576⟩ ⟨1024, 1024⟩ (by norm_num)).1 (by norm_num)).2

/-- The GPU extraction loop keeps exactly the samples with a non-empty
`gpus` list and, for each, uses only the FIRST gpu; an absent temperature
contributes the value `0` to the temperature series. -/
theorem gpuExtract_eq (l : List PDFReportGenerator.Sample) :
    PDFReportGenerator.gpuExtract l =
      (((l.filterMap fun d => d.gpus.head?).map PDFReportGenerator.GpuSample.load),
       ((l.filterMap fun d => d.gpus.head?).map fun g => g.temperature.getD 0),
       ((l.filterMap fun d => d.gpus.head?).map PDFReportGenerator.GpuSample.memory_percent)) := by
  induction l with
  | nil => rfl
  | cons d rest ih =>
    cases hg : d.gpus with
    | nil => simp [PDFReportGenerator.gpuExtract, hg, ih]
    | cons g gs => simp [PDFReportGenerator.gpuExtract, hg, ih]

/-- The GPU block of the report, characterised: when the first sample
reports availability, the block is built from the first gpu of every
sample that has one, and is omitted exactly when no sample has one. -/
theorem gpu_section_eq (d0 : PDFReportGenerator.Sample)
    (rest : List PDFReportGenerator.Sample) (h : d0.gpu_available = true) :
    (PDFReportGenerator.generate_report (d0 :: rest)).gpu_section =
      (if ((d0 :: rest).filterMap fun d => d.gpus.head?) = [] then none
       else some
        { load_stats := PDFReportGenerator.calculate_statistics
            (((d0 :: rest).filterMap fun d => d.gpus.head?).map
              PDFReportGenerator.GpuSample.load)
          temp_stats := PDFReportGenerator.calculate_statistics
            (((d0 :: rest).filterMap fun d => d.gpus.head?).map
              fun g => g.temperature.getD 0)
          mem_stats := PDFReportGenerator.calculate_statistics
            (((d0 :: rest).filterMap fun d => d.gpus.head?).map
              PDFReportGenerator.GpuSample.memory_percent) }) := by
  by_cases hrows : ((d0 :: rest).filterMap fun d => d.gpus.head?) = []
  · simp [PDFReportGenerator.generate_report, h, gpuExtract_eq, hrows]
  · obtain ⟨r, rs, hr⟩ : ∃ r rs, ((d0 :: rest).filterMap fun d => d.gpus.head?) = r :: rs := by
      cases hc : ((d0 :: rest).filterMap fun d => d.gpus.head?) with
      | nil => exact absurd hc hrows
      | cons r rs => exact ⟨r, rs, rfl⟩
    simp [PDFReportGenerator.generate_report, h, gpuExtract_eq, hrows, hr]

/-- C5: the recording loop's guard re-checks the elapsed time every tick;
at the first tick at or past `RECORDING_DURATION` the loop exits without
appending and executes `recording = False` — recording stops on its own,
with no `stop()` call, and the state returns to idle. -/
theorem recording_auto_stops_at_duration (start : ℚ)
    (pre : List (ℚ × PDFReportGenerator.Sample)) (t : ℚ)
    (smp : PDFReportGenerator.Sample) (rest : List (ℚ × PDFReportGenerator.Sample))
    (buf : List PDFReportGenerator.Sample)
    (hpre : ∀ p ∈ pre, p.1 - start < App.RECORDING_DURATION)
    (ht : App.RECORDING_DURATION ≤ t - start) :
    App.recording_worker start (pre ++ (t, smp) :: rest) true buf
      = some (false, buf ++ pre.map Prod.snd) := by
  revert hpre
  induction pre generalizing buf with
  | nil =>
    intro _
    simp [App.recording_worker, not_lt.mpr ht]
  | cons p ps ih =>
    intro hpre
    obtain ⟨tp, sp⟩ := p
    have hp : tp - start < App.RECORDING_DURATION := hpre (tp, sp) (by simp)
    have step : App.recording_worker start (((tp, sp) :: ps) ++ (t, smp) :: rest) true buf
        = App.recording_worker start (ps ++ (t, smp) :: rest) true (buf ++ [sp]) := by
      simp [App.recording_worker, hp]
    rw [step, ih (buf ++ [sp]) (fun q hq => hpre q (List.mem_cons_of_mem _ hq))]
    simp

/-- C5 witness: with the limit of 300 seconds, a tick at time 1 is
recorded and the loop exits at the tick at time 300, reporting the
recording flag false. -/
theorem recording_auto_stops_at_duration_witness :
    App.recording_worker 0
        [(1, ⟨0, none, 0, 0, 0, 0, 0, false, []⟩), (300, ⟨0, none, 0, 0, 0, 0, 0, false, []⟩)]
        true []
      = some (false, [⟨0, none, 0, 0, 0, 0, 0, false, []⟩]) := by
  have h := recording_auto_stops_at_duration 0 [(1, ⟨0, none, 0, 0, 0, 0, 0, false, []⟩)]
      300 ⟨0, none, 0, 0, 0, 0, 0, false, []⟩ [] []
      (by
        intro p hp
        simp only [List.mem_singleton] at hp
        rw [hp]
        norm_num [App.RECORDING_DURATION])
      (by norm_num [App.RECORDING_DURATION])
  simpa using h

/-- C6: `start_recording` called while a recording is active returns the
`already_recording` status and leaves the state — in particular the
buffer and its length — exactly as it was. -/
theorem start_recording_while_active_unchanged (st : App.AppState) (now : ℚ)
    (h : st.recording = true) :
    App.start_recording st now = (App.StartRecordingResult.already_recording, st) ∧
    (App.start_recording st now).2.recorded_data.length = st.recorded_data.length := by
  constructor <;> simp [App.start_recording, h]

/-- C6 witness: a concrete active state with a one-sample buffer is
returned untouched. -/
theorem start_recording_while_active_unchanged_witness :
    App.start_recording ⟨true, [⟨50, none, 40, 1, 2, 3, 4, false, []⟩], some 5⟩ 7
      = (App.StartRecordingResult.already_recording,
         ⟨true, [⟨50, none, 40, 1, 2, 3, 4, false, []⟩], some 5⟩) :=
  (start_recording_while_active_unchanged
    ⟨true, [⟨50, none, 40, 1, 2, 3, 4, false, []⟩], some 5⟩ 7 rfl).1

/-- C2 counterexample: on a one-sample buffer,
`PDFReportGenerator.generate_report` performs no insufficient-data check
— it produces a full report — while the rejection happens only in the
API-layer route, which answers `not_enough_data` without calling the
generator. -/
theorem pdf_generate_report_no_length_check_counterexample :
    PDFReportGenerator.generate_report [⟨50, none, 40, 1, 2, 3, 4, false, []⟩]
      = { sample_count := 1
          cpu_stats := ⟨50, 50, 50⟩
          mem_stats := ⟨40, 40, 40⟩
          gpu_section := none
          net_sent_stats := ⟨1, 1, 1⟩
          net_recv_stats := ⟨2, 2, 2⟩
          disk_read_stats := ⟨3, 3, 3⟩
          disk_write_stats := ⟨4, 4, 4⟩ } ∧
    App.generate_report [⟨50, none, 40, 1, 2, 3, 4, false, []⟩]
      = App.GenerateReportResult.not_enough_data := by
  constructor
  · norm_num [PDFReportGenerator.generate_report, PDFReportGenerator.calculate_statistics,
      PDFReportGenerator.gpuExtract, pyRound2, roundHalfEven]
  · norm_num [App.generate_report]

/-- C2 amended: the length ≥ 2 precondition is enforced only by the
API-layer `generate_report` route, which rejects buffers of length 0 or 1
before the generator runs; `PDFReportGenerator.generate_report` itself
checks nothing and produces a report for every buffer length. -/
theorem insufficient_data_check_api_only (recorded_data : List PDFReportGenerator.Sample)
    (h : recorded_data.length < 2) :
    App.generate_report recorded_data = App.GenerateReportResult.not_enough_data ∧
    ∀ rd : List PDFReportGenerator.Sample,
      (PDFReportGenerator.generate_report rd).sample_count = rd.length :=
  ⟨by simp [App.generate_report, h], fun _ => rfl⟩

/-- C2 amended witness: the empty buffer is rejected by the API layer. -/
theorem insufficient_data_check_api_only_witness :
    App.generate_report [] = App.GenerateReportResult.not_enough_data :=
  (insufficient_data_check_api_only [] (by norm_num)).1

/-- C3 counterexample: two samples with GPU available, the first gpu's
temperature absent in sample one and 50 in sample two. The absent
temperature is counted as the value 0: the temperature statistics are
those of the series `[0, 50]` (average 25, minimum 0), not of the
present-values-only series `[50]` (all 50). -/
theorem absent_gpu_temperature_counted_as_zero_counterexample :
    (PDFReportGenerator.generate_report
        [⟨50, none, 40, 1, 2, 3, 4, true, [⟨30, 20, none⟩]⟩,
         ⟨50, none, 40, 1, 2, 3, 4, true, [⟨30, 20, some 50⟩]⟩]).gpu_section
      = some ⟨⟨30, 30, 30⟩, ⟨25, 0, 50⟩, ⟨20, 20, 20⟩⟩ ∧
    PDFReportGenerator.calculate_statistics [50] = ⟨50, 50, 50⟩ := by
  constructor
  · norm_num [PDFReportGenerator.generate_report, PDFReportGenerator.calculate_statistics,
      PDFReportGenerator.gpuExtract, pyRound2, roundHalfEven]
  · norm_num [PDFReportGenerator.calculate_statistics, pyRound2, roundHalfEven]

/-- C3 amended: samples with an empty `gpus` list are excluded from the
GPU statistics, but within the included samples an absent first-gpu
temperature is substituted by 0 and counted in the temperature
statistic (the same `or 0` substitution is applied to the unused CPU
temperature series). -/
theorem gpu_stats_substitute_zero_for_absent (d0 : PDFReportGenerator.Sample)
    (rest : List PDFReportGenerator.Sample) (h : d0.gpu_available = true)
    (hne : ((d0 :: rest).filterMap fun d => d.gpus.head?) ≠ []) :
    (PDFReportGenerator.generate_report (d0 :: rest)).gpu_section
      = some
        { load_stats := PDFReportGenerator.calculate_statistics
            (((d0 :: rest).filterMap fun d => d.gpus.head?).map
              PDFReportGenerator.GpuSample.load)
          temp_stats := PDFReportGenerator.calculate_statistics
            (((d0 :: rest).filterMap fun d => d.gpus.head?).map
              fun g => g.temperature.getD 0)
          mem_stats := PDFReportGenerator.calculate_statistics
            (((d0 :: rest).filterMap fun d => d.gpus.head?).map
              PDFReportGenerator.GpuSample.memory_percent) } := by
  rw [gpu_section_eq d0 rest h, if_neg hne]

/-- C3 amended witness: a single sample with an absent gpu temperature
yields a temperature statistic computed over the series `[0]`. -/
theorem gpu_stats_substitute_zero_for_absent_witness :
    (PDFReportGenerator.generate_report
        [⟨50, none, 40, 1, 2, 3, 4, true, [⟨30, 20, none⟩]⟩]).gpu_section
      = some ⟨PDFReportGenerator.calculate_statistics [(30:ℚ)],
              PDFReportGenerator.calculate_statistics [(0:ℚ)],
              PDFReportGenerator.calculate_statistics [(20:ℚ)]⟩ := by
  have h := gpu_stats_substitute_zero_for_absent
      ⟨50, none, 40, 1, 2, 3, 4, true, [⟨30, 20, none⟩]⟩ [] rfl (by simp)
  simpa using h

/-- C8 counterexample: the second sample reports GPU availability (with a
gpu entry), yet no GPU statistics are included, because the code looks
only at the FIRST sample's availability flag. -/
theorem gpu_section_ignores_later_availability_counterexample :
    (⟨50, none, 40, 1, 2, 3, 4, true, [⟨30, 25, some 60⟩]⟩ :
        PDFReportGenerator.Sample).gpu_available = true ∧
    (PDFReportGenerator.generate_report
        [⟨50, none, 40, 1, 2, 3, 4, false, []⟩,
         ⟨50, none, 40, 1, 2, 3, 4, true, [⟨30, 25, some 60⟩]⟩]).gpu_section = none := by
  constructor
  · rfl
  · norm_num [PDFReportGenerator.generate_report]

/-- C8 amended: GPU statistics are included iff the FIRST sample reports
GPU availability and at least one sample carries a gpu entry; when
included they use only the first gpu of each sample that has one. -/
theorem gpu_section_iff_first_sample_available :
    ((PDFReportGenerator.generate_report []).gpu_section = none) ∧
    (∀ (d0 : PDFReportGenerator.Sample) (rest : List PDFReportGenerator.Sample),
      d0.gpu_available = false →
      (PDFReportGenerator.generate_report (d0 :: rest)).gpu_section = none) ∧
    (∀ (d0 : PDFReportGenerator.Sample) (rest : List PDFReportGenerator.Sample),
      d0.gpu_available = true →
      ((PDFReportGenerator.generate_report (d0 :: rest)).gpu_section = none
        ↔ ((d0 :: rest).filterMap fun d => d.gpus.head?) = [])) ∧
    (∀ (d0 : PDFReportGenerator.Sample) (rest : List PDFReportGenerator.Sample),
      d0.gpu_available = true →
      ((d0 :: rest).filterMap fun d => d.gpus.head?) ≠ [] →
      (PDFReportGenerator.generate_report (d0 :: rest)).gpu_section
        = some
          { load_stats := PDFReportGenerator.calculate_statistics
              (((d0 :: rest).filterMap fun d => d.gpus.head?).map
                PDFReportGenerator.GpuSample.load)
            temp_stats := PDFReportGenerator.calculate_statistics
              (((d0 :: rest).filterMap fun d => d.gpus.head?).map
                fun g => g.temperature.getD 0)
            mem_stats := PDFReportGenerator.calculate_statistics
              (((d0 :: rest).filterMap fun d => d.gpus.head?).map
                PDFReportGenerator.GpuSample.memory_percent) }) := by
  refine ⟨rfl, ?_, ?_, ?_⟩
  · intro d0 rest h
    simp [PDFReportGenerator.generate_report, h]
  · intro d0 rest h
    rw [gpu_section_eq d0 rest h]
    constructor
    · intro hnone
      by_contra hne
      rw [if_neg hne] at hnone
      exact Option.some_ne_none _ hnone
    · intro hnil
      rw [if_pos hnil]
  · intro d0 rest h hne
    rw [gpu_section_eq d0 rest h, if_neg hne]

/-- C8 amended witness: a first sample without availability suppresses the
GPU block even though the second sample has a gpu; with availability on
the first sample the block appears built from the gpu-carrying samples. -/
theorem gpu_section_iff_first_sample_available_witness :
    (PDFReportGenerator.generate_report
        [⟨50, none, 40, 1, 2, 3, 4, false, [⟨30, 25, some 60⟩]⟩]).gpu_section = none ∧
    ((PDFReportGenerator.generate_report
        [⟨50, none, 40, 1, 2, 3, 4, true, []⟩]).gpu_section = none
      ↔ (([⟨50, none, 40, 1, 2, 3, 4, true, []⟩] :
          List PDFReportGenerator.Sample).filterMap fun d => d.gpus.head?) = []) :=
  ⟨gpu_section_iff_first_sample_available.2.1
      ⟨50, none, 40, 1, 2, 3, 4, false, [⟨30, 25, some 60⟩]⟩ [] rfl,
   gpu_section_iff_first_sample_available.2.2.1
      ⟨50, none, 40, 1, 2, 3, 4, true, []⟩ [] rfl⟩
